import Mathlib

/-!
# Verification of the serv00_ghost cluster coordination core

Shallow embedding of `webssh/cluster.py` and `webssh/main.py`:
the node registry / command mailbox (`NodeManager`), the heartbeat
endpoint (`MasterHandler`), the login rate limiter (`RateLimiter` /
`LoginHandler`), the dashboard auth gateway (`BaseAuthHandler` /
`DashboardHandler` / `NodeListHandler`), the proxy forwarder
(`MasterAppsProxyHandler`), the slave heartbeat payload construction
(`SlaveWorker.send_heartbeat`) and the route table (`make_handlers`).

Python dictionaries are modelled as insertion-ordered association lists
with the update-in-place / append-if-new semantics of CPython dicts;
wall-clock timestamps (`time.time()`, a float in the source) are
modelled as integers, which preserves every comparison the code makes.
-/

namespace Serv00Ghost

/-! ## Python dict model -/

/-- `m.get(k)` / `m[k]` lookup on an insertion-ordered dict. -/
def dlookup {V : Type} (m : List (String × V)) (k : String) : Option V :=
  match m with
  | [] => none
  | (k', v) :: rest => if k' = k then some v else dlookup rest k

/-- `m[k] = v` on a dict: replaces the value at an existing key in place,
otherwise appends the new binding (CPython insertion order). -/
def dictInsert {V : Type} (m : List (String × V)) (k : String) (v : V) :
    List (String × V) :=
  match m with
  | [] => [(k, v)]
  | (k', v') :: rest =>
      if k' = k then (k, v) :: rest else (k', v') :: dictInsert rest k v

/-- `del m[k]` on a dict: removes the binding for `k` (dict keys are
unique, so removing every occurrence agrees with removing the key). -/
def dictRemove {V : Type} (m : List (String × V)) (k : String) :
    List (String × V) :=
  m.filter (fun p => p.1 != k)

/-! ## Data model: heartbeat payloads and node records -/

/-- Opaque process-list entries stored by the apps callback; the
coordination logic never inspects their content. -/
abbrev Apps := List String

/-- The node's `stats` dict: numeric telemetry entries plus the `pm2`
key that `NodeManager.get_nodes` injects (`info['stats']['pm2'] = ...`). -/
structure StatsDict where
  entries : List (String × Int)
  pm2 : Option Apps := none
  deriving DecidableEq, Repr

/-- A heartbeat payload / stored node record (a Python dict; absent keys
are `none`).  `last_seen` is stamped by the master in `update_node`;
`is_online` is set on the records returned by `get_nodes`. -/
structure NodeRecord where
  node_id : Option String := none
  name : Option String := none
  url : Option String := none
  stats : Option StatsDict := none
  username : Option String := none
  last_seen : Option Int := none
  is_online : Option Bool := none
  deriving DecidableEq, Repr

/-- A control command dict `{'action': ..., 'pm_id': ...}` as built by
`NodeControlHandler.post`. -/
structure Command where
  action : Option String := none
  pm_id : Option Int := none
  deriving DecidableEq, Repr

/-- The state held by the singleton `node_manager` (the *effective*
`NodeManager.__init__`: the class body defines `__init__` twice and the
second definition wins in Python). -/
structure NodeManagerState where
  nodes : List (String × NodeRecord) := []
  command_queue : List (String × List Command) := []
  log_buffer : List (String × String) := []
  node_apps : List (String × Apps) := []
  deriving DecidableEq, Repr

/-! ## NodeManager operations (`webssh/cluster.py`, class `NodeManager`) -/

/-- `NodeManager.update_node`: no-op when `node_data.get('node_id')` is
falsy (absent or the empty string); otherwise stamps `last_seen = now`
and stores the record wholesale under its id. -/
def update_node (s : NodeManagerState) (node_data : NodeRecord) (now : Int) :
    NodeManagerState :=
  match node_data.node_id with
  | none => s
  | some node_id =>
      if node_id = "" then s
      else { s with
               nodes := dictInsert s.nodes node_id
                 { node_data with last_seen := some now } }

/-- One iteration of the `get_nodes` loop (the *effective* second
`get_nodes` definition): injects `node_apps.get(node_id, [])` under the
`pm2` key of `info['stats']` — a `KeyError` when `stats` is absent —
and computes `is_online = (now - info.get('last_seen', 0)) < 30`. -/
def viewNode (node_apps : List (String × Apps)) (now : Int)
    (p : String × NodeRecord) : Except String NodeRecord :=
  match p.2.stats with
  | none => .error "KeyError: stats"
  | some st =>
      .ok { p.2 with
              stats := some { st with pm2 := some ((dlookup node_apps p.1).getD []) },
              is_online := some (decide (now - p.2.last_seen.getD 0 < 30)) }

/-- The `get_nodes` loop over the stored records, short-circuiting at the
first record that raises. -/
def get_nodesAux (node_apps : List (String × Apps)) (now : Int) :
    List (String × NodeRecord) → Except String (List NodeRecord)
  | [] => .ok []
  | p :: rest =>
      match viewNode node_apps now p with
      | .error e => .error e
      | .ok v =>
          match get_nodesAux node_apps now rest with
          | .error e => .error e
          | .ok vs => .ok (v :: vs)

/-- `NodeManager.get_nodes` (effective definition, lines 54-66).  The
source mutates the stored records in place while building the list; the
model returns the resulting views (the claims never observe the
in-place mutation). -/
def get_nodes (s : NodeManagerState) (now : Int) : Except String (List NodeRecord) :=
  get_nodesAux s.node_apps now s.nodes

/-- `NodeManager.queue_command`: creates the node's list if absent, then
appends. -/
def queue_command (s : NodeManagerState) (node_id : String) (command : Command) :
    NodeManagerState :=
  let cur := (dlookup s.command_queue node_id).getD []
  { s with command_queue := dictInsert s.command_queue node_id (cur ++ [command]) }

/-- `NodeManager.pop_commands`: if the node has a non-empty list, return
it and leave an empty list behind; otherwise return `[]` unchanged. -/
def pop_commands (s : NodeManagerState) (node_id : String) :
    List Command × NodeManagerState :=
  match dlookup s.command_queue node_id with
  | some cmds =>
      if cmds ≠ [] then
        (cmds, { s with command_queue := dictInsert s.command_queue node_id [] })
      else ([], s)
  | none => ([], s)

/-! ## MasterHandler (`/api/heartbeat`) -/

/-- `MasterHandler.check_permission`: `settings.get('secret')` falsy
(unset or empty) accepts everything; otherwise the `X-Cluster-Secret`
header (`none` when absent) must equal the secret exactly. -/
def check_permission (secret : Option String) (header : Option String) : Bool :=
  match secret with
  | none => true
  | some s => if s = "" then true else decide (header = some s)

/-- `pop_commands` applied to `data.get('node_id')`: `None` is never a
key of `command_queue` (keys come from `queue_command` callers that pass
strings), so a missing id yields `[]` with the state unchanged. -/
def pop_commands_opt (s : NodeManagerState) (node_id : Option String) :
    List Command × NodeManagerState :=
  match node_id with
  | none => ([], s)
  | some nid => pop_commands s nid

/-- Outcome of a heartbeat POST: HTTP status, the `commands` array of
the response body, and the resulting manager state. -/
structure HeartbeatResult where
  status : Nat
  commands : List Command
  state : NodeManagerState
  deriving DecidableEq, Repr

/-- `MasterHandler.post`: permission check (403, nothing touched on
failure), then parse the body (`none` models a body on which
`json.loads(...)` / `.get` raises, giving the 400 branch), then
`update_node` followed by `pop_commands` on the payload's id. -/
def masterHeartbeatPost (secret header : Option String)
    (body : Option NodeRecord) (s : NodeManagerState) (now : Int) :
    HeartbeatResult :=
  if ¬ check_permission secret header then ⟨403, [], s⟩
  else
    match body with
    | none => ⟨400, [], s⟩
    | some data =>
        let s1 := update_node s data now
        let pr := pop_commands_opt s1 data.node_id
        ⟨200, pr.1, pr.2⟩

/-! ## RateLimiter and LoginHandler (`/api/login`) -/

/-- One entry of `RateLimiter._failures`: `{'count': ..., 'reset': ...}`. -/
structure FailEntry where
  count : Nat
  reset : Int
  deriving DecidableEq, Repr

/-- The `RateLimiter` class state: `_failures` and `_lockouts`
(ip → unlock timestamp). -/
structure RLState where
  failures : List (String × FailEntry) := []
  lockouts : List (String × Int) := []
  deriving DecidableEq, Repr

/-- `RateLimiter.check`: an active lockout denies with the remaining
seconds; an expired lockout is deleted together with the ip's failure
record before allowing. -/
def RateLimiter_check (st : RLState) (ip : String) (now : Int) :
    (Bool × Int) × RLState :=
  match dlookup st.lockouts ip with
  | some unlock_time =>
      if now < unlock_time then ((false, unlock_time - now), st)
      else
        ((true, 0),
         { st with lockouts := dictRemove st.lockouts ip,
                   failures := dictRemove st.failures ip })
  | none => ((true, 0), st)

/-- `RateLimiter.record_failure`: start a fresh window (count 1) when no
entry exists or the stored window is older than 300s, else increment;
at a count of 5 or more set a lockout of `now + 900` and report it. -/
def record_failure (st : RLState) (ip : String) (now : Int) : Bool × RLState :=
  let entry : FailEntry :=
    match dlookup st.failures ip with
    | none => ⟨1, now⟩
    | some e => if now - e.reset > 300 then ⟨1, now⟩ else ⟨e.count + 1, e.reset⟩
  let st1 := { st with failures := dictInsert st.failures ip entry }
  if 5 ≤ entry.count then
    (true, { st1 with lockouts := dictInsert st1.lockouts ip (now + 900) })
  else
    (false, st1)

/-- Outcome of a login POST: HTTP status, whether the `auth_token`
cookie was set, the advertised wait for 429, and the limiter state. -/
structure LoginOutcome where
  status : Nat
  cookieSet : Bool
  wait : Int
  state : RLState
  deriving DecidableEq, Repr

/-- `LoginHandler.post`.  `body` is the parsed request body: `none`
models a body on which `json.loads` raises (400); otherwise it carries
`data.get('password')`.  On success the ip's failure record is deleted
and the cookie is set; on a wrong password the failure is recorded. -/
def login_post (st : RLState) (ip : String) (body : Option (Option String))
    (auth_password : String) (now : Int) : LoginOutcome :=
  let chk := RateLimiter_check st ip now
  let allowed := chk.1.1
  let wait_time := chk.1.2
  let st1 := chk.2
  if ¬ allowed then ⟨429, false, wait_time, st1⟩
  else
    match body with
    | none => ⟨400, false, 0, st1⟩
    | some password =>
        if password = some auth_password then
          ⟨200, true, 0, { st1 with failures := dictRemove st1.failures ip }⟩
        else
          ⟨403, false, 0, (record_failure st1 ip now).2⟩

/-! ## BaseAuthHandler / DashboardHandler / NodeListHandler -/

/-- `BaseAuthHandler.check_auth`: open when `auth_password` is empty;
else the `auth_token` cookie must equal the password, or the parsed
`Authorization: Basic` credential's password component must.
`basic_cred` is the decoded `(username, password)` pair; `none` models
an absent header, a non-Basic scheme, or a failed base64/split decode
(all of which return `False` in the source). -/
def check_auth (auth_password : String) (cookie : Option String)
    (basic_cred : Option (String × String)) : Bool :=
  if auth_password = "" then true
  else if cookie = some auth_password then true
  else
    match basic_cred with
    | none => false
    | some (_, password) => decide (password = auth_password)

/-- `DashboardHandler.get`: the secret handed to the rendered page is
the configured secret for an authenticated visitor and `''` for a
guest. -/
def dashboard_secret (is_authed : Bool) (options_secret : String) : String :=
  if is_authed then options_secret else ""

/-! ## URL handling (`urlparse` / `urlencode` as used by the source) -/

/-- The components of `urllib.parse.urlparse` that the source consumes
(scheme, netloc, path, query), for absolute `scheme://netloc/path?query`
URLs — the only shape the cluster code produces. -/
structure ParsedUrl where
  scheme : String
  netloc : String
  path : String
  query : String
  deriving DecidableEq, Repr

/-- Splits a character list at the first character satisfying `p`:
returns the prefix before it and the remainder starting with it. -/
def takeUntil (p : Char → Bool) : List Char → List Char × List Char
  | [] => ([], [])
  | a :: rest =>
      if p a then ([], a :: rest)
      else
        let r := takeUntil p rest
        (a :: r.1, r.2)

/-- `urlparse` on the URL shapes the cluster code handles: an absolute
`scheme://netloc[/path][?query][#fragment]` URL is split into its
components; anything else (no `://`) parses as a bare path, as
`urllib.parse.urlparse` does for scheme-less strings. -/
def urlparse (u : String) : ParsedUrl :=
  let sch := takeUntil (fun c => c = ':') u.data
  match sch.2 with
  | ':' :: '/' :: '/' :: rest2 =>
      let net := takeUntil (fun c => c = '/' || c = '?' || c = '#') rest2
      let pth := takeUntil (fun c => c = '?' || c = '#') net.2
      let queryC :=
        match pth.2 with
        | '?' :: q => (takeUntil (fun c => c = '#') q).1
        | _ => []
      ⟨⟨sch.1⟩, ⟨net.1⟩, ⟨pth.1⟩, ⟨queryC⟩⟩
  | _ => ⟨"", "", u, ""⟩

/-- `urlunparse((scheme, netloc, path, '', query, ''))` as the source
calls it. -/
def urlunparse (p : ParsedUrl) (query : String) : String :=
  p.scheme ++ "://" ++ p.netloc ++ p.path ++ (if query = "" then "" else "?" ++ query)

/-- UTF-8 bytes of a character (as `Nat`s below 256). -/
def charUtf8Bytes (c : Char) : List Nat :=
  let n := c.toNat
  if n < 0x80 then [n]
  else if n < 0x800 then
    [0xC0 + n / 64, 0x80 + n % 64]
  else if n < 0x10000 then
    [0xE0 + n / 4096, 0x80 + (n / 64) % 64, 0x80 + n % 64]
  else
    [0xF0 + n / 262144, 0x80 + (n / 4096) % 64, 0x80 + (n / 64) % 64, 0x80 + n % 64]

/-- UTF-8 byte sequence of a string. -/
def strUtf8Bytes (s : String) : List Nat :=
  (s.data.map charUtf8Bytes).flatten

/-- Uppercase hex digit. -/
def hexDigit (n : Nat) : Char :=
  if n < 10 then Char.ofNat (48 + n) else Char.ofNat (55 + n)

/-- `%XX` escape of one byte, as `urllib.parse.quote` emits it. -/
def quoteByte (b : Nat) : List Char :=
  ['%', hexDigit (b / 16), hexDigit (b % 16)]

/-- The characters `urllib.parse.quote_plus` leaves unescaped
(ASCII alphanumerics and `_.-~`). -/
def isSafeChar (c : Char) : Bool :=
  c.isAlphanum || c = '_' || c = '.' || c = '-' || c = '~'

/-- `quote_plus` on one character: safe characters pass through, space
becomes `+`, everything else is percent-escaped byte by byte. -/
def quotePlusChar (c : Char) : List Char :=
  if isSafeChar c then [c]
  else if c = ' ' then ['+']
  else ((charUtf8Bytes c).map quoteByte).flatten

/-- `urllib.parse.quote_plus`. -/
def quotePlus (s : String) : String :=
  ⟨(s.data.map quotePlusChar).flatten⟩

/-- `urllib.parse.urlencode` on an insertion-ordered dict of string
values: `&`-joined `key=value` pieces, each side `quote_plus`-escaped. -/
def urlencode : List (String × String) → String
  | [] => ""
  | [p] => quotePlus p.1 ++ "=" ++ quotePlus p.2
  | p :: rest => quotePlus p.1 ++ "=" ++ quotePlus p.2 ++ "&" ++ urlencode rest

/-- Base64 alphabet character. -/
def b64Char (n : Nat) : Char :=
  if n < 26 then Char.ofNat (65 + n)
  else if n < 52 then Char.ofNat (97 + (n - 26))
  else if n < 62 then Char.ofNat (48 + (n - 52))
  else if n = 62 then '+'
  else '/'

/-- Base64 encoding of a byte list, three bytes a group with `=`
padding. -/
def b64Group : List Nat → List Char
  | a :: b :: c :: rest =>
      let n := a * 65536 + b * 256 + c
      b64Char (n / 262144) :: b64Char ((n / 4096) % 64) ::
        b64Char ((n / 64) % 64) :: b64Char (n % 64) :: b64Group rest
  | [a, b] =>
      let n := a * 65536 + b * 256
      [b64Char (n / 262144), b64Char ((n / 4096) % 64), b64Char ((n / 64) % 64), '=']
  | [a] =>
      let n := a * 65536
      [b64Char (n / 262144), b64Char ((n / 4096) % 64), '=', '=']
  | [] => []

/-- `base64.b64encode(s.encode('utf-8')).decode('utf-8')`. -/
def b64encode (s : String) : String :=
  ⟨b64Group (strUtf8Bytes s)⟩

/-! ## SlaveWorker.send_heartbeat payload construction -/

/-- The SSH deep link `send_heartbeat` builds when `ssh_user` and
`ssh_password` are both set: query dict
`{hostname, username, password (base64), port}` plus `secret` when a
cluster secret is configured, urlencoded onto `my_url` (whose own query,
if any, is kept in front). -/
def buildSshLink (my_url ssh_host ssh_user ssh_password : String)
    (ssh_port : Nat) (secret : String) : String :=
  let b64_pass := b64encode ssh_password
  let parsed := urlparse my_url
  let query : List (String × String) :=
    [("hostname", ssh_host), ("username", ssh_user),
     ("password", b64_pass), ("port", toString ssh_port)]
  let query := if secret ≠ "" then query ++ [("secret", secret)] else query
  let new_query := urlencode query
  let new_query :=
    if parsed.query ≠ "" then parsed.query ++ "&" ++ new_query else new_query
  urlunparse parsed new_query

/-- The heartbeat payload dict built by `SlaveWorker.send_heartbeat`
(after `collect_stats`): the `url` field is the SSH deep link when both
SSH credentials are configured, the bare `my_url` otherwise. -/
def slaveHeartbeatData (node_id node_name my_url ssh_host ssh_user ssh_password : String)
    (ssh_port : Nat) (secret : String) (stats : StatsDict) : NodeRecord :=
  let url :=
    if ssh_user ≠ "" ∧ ssh_password ≠ "" then
      buildSshLink my_url ssh_host ssh_user ssh_password ssh_port secret
    else my_url
  { node_id := some node_id, name := some node_name, url := some url,
    stats := some stats, username := some ssh_user }

/-! ## MasterAppsProxyHandler (`/api/apps/proxy`) -/

/-- The proxy request body `{node_id, action, pm_id}`. -/
structure ProxyBody where
  node_id : Option String := none
  action : Option String := none
  pm_id : Option Int := none
  deriving DecidableEq, Repr

/-- What `MasterAppsProxyHandler.post` decides before (or instead of)
touching the network: 403 without auth; 500 when an exception is raised
(unparseable body, or a stored record without a `url` so `urlparse`
raises); 404 with no outbound request when the id has no registry
entry; otherwise an outbound POST to the node's cleaned base URL plus
`/api/slave/pm2`, carrying the secret header when one is configured. -/
inductive ProxyDecision where
  | forbidden
  | error500
  | notFound
  | forward (api_url : String) (secret_header : Bool)
  deriving DecidableEq, Repr

/-- `rstrip('/')`. -/
def rstripSlashAux : List Char → List Char
  | [] => []
  | c :: cs => if c = '/' then rstripSlashAux cs else c :: cs

/-- `s.rstrip('/')`. -/
def rstripSlash (s : String) : String :=
  ⟨(rstripSlashAux s.data.reverse).reverse⟩

/-- `MasterAppsProxyHandler.post` up to the outbound fetch.  The
`node_id == 'local' or node_id == platform.node()` branch of the source
is a bare `pass` and has no effect.  The registry lookup is plain
membership: `last_seen` is never consulted. -/
def proxy_post (authed : Bool) (body : Option ProxyBody)
    (s : NodeManagerState) (options_secret : String) : ProxyDecision :=
  if ¬ authed then .forbidden
  else
    match body with
    | none => .error500
    | some data =>
        let node_info :=
          match data.node_id with
          | none => none
          | some nid => dlookup s.nodes nid
        match node_info with
        | none => .notFound
        | some info =>
            match info.url with
            | none => .error500
            | some target_url =>
                let parsed := urlparse target_url
                let clean_url :=
                  parsed.scheme ++ "://" ++ parsed.netloc ++ rstripSlash parsed.path
                .forward (clean_url ++ "/api/slave/pm2") (options_secret ≠ "")

/-! ## Route table (`webssh/main.py`, `make_handlers` / `make_app`) -/

/-- The handler classes `make_handlers` can install, plus the
application-wide `default_handler_class` (`NotFoundHandler`). -/
inductive HandlerTag where
  | indexH
  | wsockH
  | dashboardH
  | loginH
  | nodeListH
  | masterH
  | notFoundH
  deriving DecidableEq, Repr

/-- The options `make_handlers` consults. -/
structure RouteOpts where
  mode : String
  with_slave : Bool
  deriving DecidableEq, Repr

/-- `make_handlers`: the standalone/slave table, replaced wholesale in
master mode by dashboard/login/nodes/heartbeat, with the embedded
WebSSH routes appended when `with_slave` is set (the source appends
`/webssh/ws` twice). -/
def make_handlers (o : RouteOpts) : List (String × HandlerTag) :=
  let handlers : List (String × HandlerTag) := [("/", .indexH), ("/ws", .wsockH)]
  if o.mode = "master" then
    let handlers : List (String × HandlerTag) :=
      [("/", .dashboardH), ("/api/login", .loginH),
       ("/api/nodes", .nodeListH), ("/api/heartbeat", .masterH)]
    if o.with_slave then
      handlers ++ [("/webssh", .indexH), ("/ws", .wsockH),
                   ("/webssh/ws", .wsockH), ("/webssh/ws", .wsockH)]
    else handlers
  else handlers

/-- Tornado request routing over the literal path patterns of
`make_handlers` (Tornado anchors each pattern, so these patterns match
exactly their own text); an unmatched path goes to the
`default_handler_class` installed by `make_app`, i.e.
`NotFoundHandler`. -/
def routeOf (handlers : List (String × HandlerTag)) (path : String) : HandlerTag :=
  match handlers.find? (fun p => p.1 == path) with
  | some p => p.2
  | none => .notFoundH

/-! ## Substring observation (used to state secret-exposure properties) -/

/-- Boolean list-prefix test. -/
def listIsPrefix : List Char → List Char → Bool
  | [], _ => true
  | _ :: _, [] => false
  | a :: as, b :: bs => a == b && listIsPrefix as bs

/-- Boolean contiguous-sublist test. -/
def listContainsSub (sub : List Char) : List Char → Bool
  | [] => listIsPrefix sub []
  | b :: bs => listIsPrefix sub (b :: bs) || listContainsSub sub bs

/-- `sub` occurs as a contiguous substring of `s`. -/
def strContains (s sub : String) : Bool :=
  listContainsSub sub.data s.data

/-! ## Dictionary lemmas -/

theorem dlookup_dictInsert_self {V : Type} (m : List (String × V)) (k : String) (v : V) :
    dlookup (dictInsert m k v) k = some v := by
  induction m with
  | nil => simp [dictInsert, dlookup]
  | cons p rest ih =>
      obtain ⟨k', v'⟩ := p
      by_cases h : k' = k
      · simp [dictInsert, h, dlookup]
      · simp [dictInsert, h, dlookup, ih]

theorem dlookup_dictInsert_ne {V : Type} (m : List (String × V)) (k k' : String) (v : V)
    (h : k ≠ k') : dlookup (dictInsert m k v) k' = dlookup m k' := by
  induction m with
  | nil => simp [dictInsert, dlookup, h]
  | cons p rest ih =>
      obtain ⟨k₀, v₀⟩ := p
      by_cases hk : k₀ = k
      · subst hk
        simp [dictInsert, dlookup, h]
      · simp [dictInsert, hk, dlookup, ih]

theorem dlookup_dictRemove_self {V : Type} (m : List (String × V)) (k : String) :
    dlookup (dictRemove m k) k = none := by
  induction m with
  | nil => simp [dictRemove, dlookup]
  | cons p rest ih =>
      obtain ⟨k₀, v₀⟩ := p
      by_cases hk : k₀ = k
      · simpa [dictRemove, hk] using ih
      · simpa [dictRemove, hk, dlookup] using ih

theorem dlookup_dictRemove_ne {V : Type} (m : List (String × V)) (k k' : String)
    (h : k ≠ k') : dlookup (dictRemove m k) k' = dlookup m k' := by
  induction m with
  | nil => simp [dictRemove, dlookup]
  | cons p rest ih =>
      obtain ⟨k₀, v₀⟩ := p
      simp only [dictRemove, List.filter_cons] at ih ⊢
      by_cases hk : k₀ = k
      · subst hk
        have hne : ¬ k₀ = k' := h
        simp [dlookup, hne, ih]
      · by_cases hk' : k₀ = k'
        · simp [hk, dlookup, hk', Ne.symm h]
        · simp [hk, dlookup, hk', ih]

theorem mem_dictInsert_self {V : Type} (m : List (String × V)) (k : String) (v : V) :
    (k, v) ∈ dictInsert m k v := by
  induction m with
  | nil => simp [dictInsert]
  | cons p rest ih =>
      obtain ⟨k₀, v₀⟩ := p
      by_cases hk : k₀ = k
      · simp [dictInsert, hk]
      · simp [dictInsert, hk]
        right
        exact ih

theorem dictInsert_dictInsert {V : Type} (m : List (String × V)) (k : String) (v v' : V) :
    dictInsert (dictInsert m k v) k v' = dictInsert m k v' := by
  induction m with
  | nil => simp [dictInsert]
  | cons p rest ih =>
      obtain ⟨k₀, v₀⟩ := p
      by_cases hk : k₀ = k
      · simp [dictInsert, hk]
      · simp [dictInsert, hk, ih]

/-! ## Helper lemmas about the NodeManager operations -/

theorem pop_commands_nodes (s : NodeManagerState) (nid : String) :
    (pop_commands s nid).2.nodes = s.nodes := by
  unfold pop_commands
  split
  · split
    · rfl
    · rfl
  · rfl

theorem queue_lookup_after_foldl (nid : String) (cmds : List Command) :
    ∀ (s : NodeManagerState) (l : List Command),
      dlookup s.command_queue nid = some l →
      dlookup ((cmds.foldl (fun st c => queue_command st nid c) s).command_queue) nid
        = some (l ++ cmds) := by
  induction cmds with
  | nil =>
      intro s l h
      simpa using h
  | cons c rest ih =>
      intro s l h
      have h1 : dlookup (queue_command s nid c).command_queue nid = some (l ++ [c]) := by
        simp [queue_command, h, dlookup_dictInsert_self]
      have h2 := ih (queue_command s nid c) (l ++ [c]) h1
      simpa [List.append_assoc] using h2

/-- C1: the FIFO mailbox drains completely and exactly once. -/
theorem mailbox_fifo_drain (s : NodeManagerState) (nid : String) (cmds : List Command)
    (h : dlookup s.command_queue nid = none ∨ dlookup s.command_queue nid = some []) :
    (pop_commands (cmds.foldl (fun st c => queue_command st nid c) s) nid).1 = cmds ∧
    (pop_commands
       (pop_commands (cmds.foldl (fun st c => queue_command st nid c) s) nid).2 nid).1
      = [] ∧
    (dlookup s.command_queue nid = none → pop_commands s nid = ([], s)) := by
  have hmain :
      (pop_commands (cmds.foldl (fun st c => queue_command st nid c) s) nid).1 = cmds ∧
      (pop_commands
         (pop_commands (cmds.foldl (fun st c => queue_command st nid c) s) nid).2 nid).1
        = [] := by
    cases cmds with
    | nil =>
        rcases h with h0 | h0 <;> simp [pop_commands, h0]
    | cons c rest =>
        have hcur : (dlookup s.command_queue nid).getD [] = [] := by
          rcases h with h0 | h0 <;> simp [h0]
        have h1 : dlookup (queue_command s nid c).command_queue nid = some [c] := by
          simp [queue_command, hcur, dlookup_dictInsert_self]
        have h2 := queue_lookup_after_foldl nid rest (queue_command s nid c) [c] h1
        have hfinal :
            dlookup ((rest.foldl (fun st c' => queue_command st nid c') (queue_command s nid c)).command_queue) nid
              = some (c :: rest) := by
          simpa using h2
        simp only [List.foldl_cons]
        simp [pop_commands, hfinal, dlookup_dictInsert_self]
  refine ⟨hmain.1, hmain.2, ?_⟩
  intro h0
  simp [pop_commands, h0]

/-- Witness for C1 at a concrete enqueue/drain sequence. -/
theorem mailbox_fifo_drain_witness :
    (pop_commands
       ([{ action := some "restart", pm_id := some 3 }].foldl
         (fun st c => queue_command st "s1" c) {}) "s1").1
      = [{ action := some "restart", pm_id := some 3 }] ∧
    (pop_commands
       (pop_commands
         ([{ action := some "restart", pm_id := some 3 }].foldl
           (fun st c => queue_command st "s1" c) {}) "s1").2 "s1").1
      = [] ∧
    (dlookup ({} : NodeManagerState).command_queue "s1" = none →
      pop_commands {} "s1" = ([], {})) :=
  mailbox_fifo_drain {} "s1" [{ action := some "restart", pm_id := some 3 }] (Or.inl rfl)

/-- C3: with a non-empty secret configured, a heartbeat is rejected with
403 — leaving registry and mailboxes untouched — exactly when the
`X-Cluster-Secret` header is absent or different; with no secret
configured every request passes the permission check. -/
theorem heartbeat_secret_gate (secret header : Option String)
    (body : Option NodeRecord) (s : NodeManagerState) (now : Int) :
    (∀ sec, secret = some sec → sec ≠ "" →
      (((masterHeartbeatPost secret header body s now).status = 403 ∧
        (masterHeartbeatPost secret header body s now).state = s)
        ↔ header ≠ some sec)) ∧
    ((secret = none ∨ secret = some "") → check_permission secret header = true) := by
  constructor
  · intro sec hsec hne
    subst hsec
    by_cases hh : header = some sec
    · have hcp : check_permission (some sec) (some sec) = true := by
        simp [check_permission, hne]
      cases body with
      | none => simp [masterHeartbeatPost, hcp, hh]
      | some nd => simp [masterHeartbeatPost, hcp, hh]
    · have hcp : check_permission (some sec) header = false := by
        simp [check_permission, hne, hh]
      simp [masterHeartbeatPost, hcp, hh]
  · rintro (rfl | rfl) <;> simp [check_permission]

/-- Witness for C3: a heartbeat without the header against a configured
secret is rejected with 403 and changes nothing. -/
theorem heartbeat_secret_gate_witness :
    (masterHeartbeatPost (some "s3cr3t") none (some { node_id := some "n1" }) {} 0).status
      = 403 ∧
    (masterHeartbeatPost (some "s3cr3t") none (some { node_id := some "n1" }) {} 0).state
      = {} :=
  ((heartbeat_secret_gate (some "s3cr3t") none (some { node_id := some "n1" }) {} 0).1
    "s3cr3t" rfl (by decide)).mpr (by decide)

/-- C5: a heartbeat whose payload has no (or an empty) `node_id` leaves
the registry untouched and still completes with status 200. -/
theorem heartbeat_missing_node_id (secret header : Option String) (nd : NodeRecord)
    (s : NodeManagerState) (now : Int)
    (hperm : check_permission secret header = true)
    (hid : nd.node_id = none ∨ nd.node_id = some "") :
    (masterHeartbeatPost secret header (some nd) s now).status = 200 ∧
    (masterHeartbeatPost secret header (some nd) s now).state.nodes = s.nodes := by
  have hupd : update_node s nd now = s := by
    rcases hid with h0 | h0 <;> simp [update_node, h0]
  rcases hid with h0 | h0
  · simp [masterHeartbeatPost, hperm, hupd, h0, pop_commands_opt]
  · refine ⟨by simp [masterHeartbeatPost, hperm], ?_⟩
    simp [masterHeartbeatPost, hperm, hupd, h0, pop_commands_opt, pop_commands_nodes]

/-- Witness for C5: a named but id-less payload is a 200 no-op. -/
theorem heartbeat_missing_node_id_witness :
    (masterHeartbeatPost none none (some { name := some "ghost" }) {} 7).status = 200 ∧
    (masterHeartbeatPost none none (some { name := some "ghost" }) {} 7).state.nodes
      = ({} : NodeManagerState).nodes :=
  heartbeat_missing_node_id none none { name := some "ghost" } {} 7 rfl (Or.inl rfl)

/-! ## Helper lemmas about `get_nodes` -/

theorem viewNode_ok_fields (apps : List (String × Apps)) (now : Int)
    (p : String × NodeRecord) (v : NodeRecord) (h : viewNode apps now p = .ok v) :
    v.node_id = p.2.node_id ∧ v.url = p.2.url ∧ v.last_seen = p.2.last_seen ∧
    v.is_online = some (decide (now - p.2.last_seen.getD 0 < 30)) := by
  unfold viewNode at h
  cases hst : p.2.stats with
  | none => rw [hst] at h; cases h
  | some st =>
      rw [hst] at h
      simp only [Except.ok.injEq] at h
      subst h
      simp

theorem get_nodesAux_mem (apps : List (String × Apps)) (now : Int) :
    ∀ (ns : List (String × NodeRecord)) (l : List NodeRecord),
      get_nodesAux apps now ns = .ok l →
      ∀ v ∈ l, ∃ p ∈ ns, viewNode apps now p = .ok v := by
  intro ns
  induction ns with
  | nil =>
      intro l h v hv
      simp only [get_nodesAux, Except.ok.injEq] at h
      subst h
      simp at hv
  | cons q rest ih =>
      intro l h v hv
      simp only [get_nodesAux] at h
      cases hview : viewNode apps now q with
      | error e => rw [hview] at h; simp at h
      | ok v0 =>
          rw [hview] at h
          cases hrest : get_nodesAux apps now rest with
          | error e => rw [hrest] at h; simp at h
          | ok vs =>
              rw [hrest] at h
              simp only [Except.ok.injEq] at h
              subst h
              rcases List.mem_cons.1 hv with rfl | hv'
              · exact ⟨q, by simp, hview⟩
              · obtain ⟨p, hp, hpv⟩ := ih vs hrest v hv'
                exact ⟨p, List.mem_cons_of_mem _ hp, hpv⟩

/-- C4: every record returned by `get_nodes` reports `is_online = true`
exactly when, at the time of the call, strictly less than 30 seconds
have elapsed since the stored `last_seen` of the corresponding registry
entry. -/
theorem nodes_online_threshold (s : NodeManagerState) (now : Int) (l : List NodeRecord)
    (h : get_nodes s now = .ok l) :
    ∀ v ∈ l, ∃ p ∈ s.nodes,
      v.node_id = p.2.node_id ∧ v.last_seen = p.2.last_seen ∧
      (v.is_online = some true ↔ now - p.2.last_seen.getD 0 < 30) := by
  intro v hv
  obtain ⟨p, hp, hview⟩ := get_nodesAux_mem s.node_apps now s.nodes l h v hv
  obtain ⟨h1, _, h3, h4⟩ := viewNode_ok_fields s.node_apps now p v hview
  refine ⟨p, hp, h1, h3, ?_⟩
  rw [h4]
  constructor
  · intro he
    exact of_decide_eq_true (Option.some.inj he)
  · intro hc
    simp [hc]

/-- Witness for C4: a node last seen 10 seconds ago is online. -/
theorem nodes_online_threshold_witness :
    ∃ p ∈ ({ nodes := [("s1",
        { node_id := some "s1", stats := some { entries := [("cpu", 10)] },
          last_seen := some 0 })] } : NodeManagerState).nodes,
      ({ node_id := some "s1",
         stats := some { entries := [("cpu", 10)], pm2 := some [] },
         last_seen := some 0, is_online := some true } : NodeRecord).node_id = p.2.node_id ∧
      ({ node_id := some "s1",
         stats := some { entries := [("cpu", 10)], pm2 := some [] },
         last_seen := some 0, is_online := some true } : NodeRecord).last_seen
        = p.2.last_seen ∧
      (({ node_id := some "s1",
          stats := some { entries := [("cpu", 10)], pm2 := some [] },
          last_seen := some 0, is_online := some true } : NodeRecord).is_online = some true
        ↔ (10 : Int) - p.2.last_seen.getD 0 < 30) :=
  nodes_online_threshold
    { nodes := [("s1",
        { node_id := some "s1", stats := some { entries := [("cpu", 10)] },
          last_seen := some 0 })] } 10
    [{ node_id := some "s1",
       stats := some { entries := [("cpu", 10)], pm2 := some [] },
       last_seen := some 0, is_online := some true }] rfl
    { node_id := some "s1",
      stats := some { entries := [("cpu", 10)], pm2 := some [] },
      last_seen := some 0, is_online := some true } (by simp)

theorem get_nodesAux_error_of_missing_stats (apps : List (String × Apps)) (now : Int) :
    ∀ (ns : List (String × NodeRecord)), (∃ p ∈ ns, p.2.stats = none) →
      ∃ e, get_nodesAux apps now ns = .error e := by
  intro ns
  induction ns with
  | nil =>
      rintro ⟨p, hp, _⟩
      simp at hp
  | cons q rest ih =>
      rintro ⟨p, hp, hstats⟩
      rcases List.mem_cons.1 hp with rfl | hp'
      · exact ⟨"KeyError: stats", by simp [get_nodesAux, viewNode, hstats]⟩
      · obtain ⟨e, he⟩ := ih ⟨p, hp', hstats⟩
        cases hview : viewNode apps now q with
        | error e0 => exact ⟨e0, by simp [get_nodesAux, hview]⟩
        | ok v0 => exact ⟨e, by simp [get_nodesAux, hview, he]⟩

theorem get_nodesAux_ok_of_stats (apps : List (String × Apps)) (now : Int) :
    ∀ (ns : List (String × NodeRecord)), (∀ p ∈ ns, (p.2.stats).isSome) →
      ∃ l, get_nodesAux apps now ns = .ok l := by
  intro ns
  induction ns with
  | nil => intro _; exact ⟨[], rfl⟩
  | cons q rest ih =>
      intro hall
      obtain ⟨st, hst⟩ := Option.isSome_iff_exists.mp (hall q (by simp))
      obtain ⟨l, hl⟩ := ih (fun p hp => hall p (List.mem_cons_of_mem _ hp))
      refine ⟨{ q.2 with
                 stats := some { st with pm2 := some ((dlookup apps q.1).getD []) },
                 is_online := some (decide (now - q.2.last_seen.getD 0 < 30)) } :: l, ?_⟩
      simp [get_nodesAux, viewNode, hst, hl]

/-- C10 (implicit): the registry stores a heartbeat record that has a
`node_id` but no `stats`, after which every `get_nodes` call raises
(`KeyError`); the listing is total exactly under the precondition that
all stored records carry a `stats` mapping. -/
theorem statsless_record_breaks_listing (s : NodeManagerState) (nd : NodeRecord)
    (nid : String) (now now2 : Int)
    (hid : nd.node_id = some nid) (hne : nid ≠ "") (hstats : nd.stats = none) :
    (dlookup (update_node s nd now).nodes nid = some { nd with last_seen := some now } ∧
     ∃ e, get_nodes (update_node s nd now) now2 = .error e) ∧
    (∀ (s' : NodeManagerState) (t : Int),
        (∀ p ∈ s'.nodes, (p.2.stats).isSome) → ∃ l, get_nodes s' t = .ok l) := by
  have hupd : (update_node s nd now).nodes
      = dictInsert s.nodes nid { nd with last_seen := some now } := by
    simp [update_node, hid, hne]
  refine ⟨⟨?_, ?_⟩, ?_⟩
  · rw [hupd]
    exact dlookup_dictInsert_self _ _ _
  · unfold get_nodes
    apply get_nodesAux_error_of_missing_stats
    refine ⟨(nid, { nd with last_seen := some now }), ?_, ?_⟩
    · rw [hupd]
      exact mem_dictInsert_self _ _ _
    · exact hstats
  · intro s' t hall
    exact get_nodesAux_ok_of_stats s'.node_apps t s'.nodes hall

/-- Witness for C10: a `stats`-less record is stored and poisons the
listing. -/
theorem statsless_record_breaks_listing_witness :
    dlookup (update_node {} { node_id := some "s1" } 5).nodes "s1"
      = some { node_id := some "s1", last_seen := some 5 } ∧
    ∃ e, get_nodes (update_node {} { node_id := some "s1" } 5) 99 = .error e :=
  (statsless_record_breaks_listing {} { node_id := some "s1" } "s1" 5 99 rfl
    (by decide) rfl).1

/-! ## Helper lemmas about the rate limiter -/

theorem record_failure_cases (st : RLState) (ip : String) (now : Int) :
    (record_failure st ip now).2.lockouts = st.lockouts ∨
    ((record_failure st ip now).2.lockouts = dictInsert st.lockouts ip (now + 900) ∧
     ∃ e, dlookup (record_failure st ip now).2.failures ip = some e ∧ 5 ≤ e.count) := by
  unfold record_failure
  dsimp only
  split
  · next h5 =>
      right
      exact ⟨rfl, _, dlookup_dictInsert_self _ _ _, h5⟩
  · left
    rfl

/-- C6: a lockout is only ever installed together with a failure count
of at least 5, and a `check` past the lockout's expiry allows the
attempt while deleting both the lockout and the failure counter. -/
theorem ratelimiter_lockout_invariant (st : RLState) (ip : String) (now u : Int)
    (hlock : dlookup st.lockouts ip = some u) (hexp : u ≤ now) :
    (∀ (st' : RLState) (ip' : String) (t : Int),
        (record_failure st' ip' t).2.lockouts ≠ st'.lockouts →
        ∃ e, dlookup (record_failure st' ip' t).2.failures ip' = some e ∧ 5 ≤ e.count) ∧
    ((RateLimiter_check st ip now).1.1 = true ∧
     dlookup (RateLimiter_check st ip now).2.lockouts ip = none ∧
     dlookup (RateLimiter_check st ip now).2.failures ip = none) := by
  constructor
  · intro st' ip' t hne
    rcases record_failure_cases st' ip' t with h | ⟨_, hex⟩
    · exact absurd h hne
    · exact hex
  · have hn : ¬ (now < u) := by omega
    simp [RateLimiter_check, hlock, hn, dlookup_dictRemove_self]

/-- Witness for C6: an expired lockout is cleared by the next check. -/
theorem ratelimiter_lockout_invariant_witness :
    (RateLimiter_check
       { failures := [("a", ⟨5, 0⟩)], lockouts := [("a", 900)] } "a" 900).1.1 = true ∧
    dlookup (RateLimiter_check
       { failures := [("a", ⟨5, 0⟩)], lockouts := [("a", 900)] } "a" 900).2.lockouts "a"
      = none ∧
    dlookup (RateLimiter_check
       { failures := [("a", ⟨5, 0⟩)], lockouts := [("a", 900)] } "a" 900).2.failures "a"
      = none :=
  (ratelimiter_lockout_invariant
    { failures := [("a", ⟨5, 0⟩)], lockouts := [("a", 900)] } "a" 900 900 rfl
    (by decide)).2

/-- C2: five wrong-password logins from one IP inside the 300s window
lock it out; the 6th attempt is 429-rejected without a cookie even with
the correct password; after the 900s lockout passes, a correct password
logs in, sets the cookie, and clears the IP's failure record. -/
theorem login_lockout_flow (st0 : RLState) (ip auth w1 w2 w3 w4 w5 : String)
    (t1 t2 t3 t4 t5 t6 t7 : Int)
    (hf : dlookup st0.failures ip = none) (hl : dlookup st0.lockouts ip = none)
    (hw1 : w1 ≠ auth) (hw2 : w2 ≠ auth) (hw3 : w3 ≠ auth)
    (hw4 : w4 ≠ auth) (hw5 : w5 ≠ auth)
    (h2 : t2 - t1 ≤ 300) (h3 : t3 - t1 ≤ 300) (h4 : t4 - t1 ≤ 300) (h5 : t5 - t1 ≤ 300)
    (h6 : t6 < t5 + 900) (h7 : t5 + 900 ≤ t7) :
    let o1 := login_post st0 ip (some (some w1)) auth t1
    let o2 := login_post o1.state ip (some (some w2)) auth t2
    let o3 := login_post o2.state ip (some (some w3)) auth t3
    let o4 := login_post o3.state ip (some (some w4)) auth t4
    let o5 := login_post o4.state ip (some (some w5)) auth t5
    let o6 := login_post o5.state ip (some (some auth)) auth t6
    let o7 := login_post o6.state ip (some (some auth)) auth t7
    o1.status = 403 ∧ o2.status = 403 ∧ o3.status = 403 ∧ o4.status = 403 ∧
    o5.status = 403 ∧ o6.status = 429 ∧ o6.cookieSet = false ∧
    o7.status = 200 ∧ o7.cookieSet = true ∧ dlookup o7.state.failures ip = none := by
  have hnw2 : ¬ (t2 - t1 > 300) := by omega
  have hnw3 : ¬ (t3 - t1 > 300) := by omega
  have hnw4 : ¬ (t4 - t1 > 300) := by omega
  have hnw5 : ¬ (t5 - t1 > 300) := by omega
  have hn7 : ¬ (t7 < t5 + 900) := by omega
  have f1 : login_post st0 ip (some (some w1)) auth t1
      = ⟨403, false, 0, { st0 with failures := dictInsert st0.failures ip ⟨1, t1⟩ }⟩ := by
    simp [login_post, RateLimiter_check, hl, hw1, record_failure, hf]
  have f2 : login_post { st0 with failures := dictInsert st0.failures ip ⟨1, t1⟩ } ip
        (some (some w2)) auth t2
      = ⟨403, false, 0, { st0 with failures := dictInsert st0.failures ip ⟨2, t1⟩ }⟩ := by
    simp [login_post, RateLimiter_check, hl, hw2, record_failure,
          dlookup_dictInsert_self, dictInsert_dictInsert, hnw2]
  have f3 : login_post { st0 with failures := dictInsert st0.failures ip ⟨2, t1⟩ } ip
        (some (some w3)) auth t3
      = ⟨403, false, 0, { st0 with failures := dictInsert st0.failures ip ⟨3, t1⟩ }⟩ := by
    simp [login_post, RateLimiter_check, hl, hw3, record_failure,
          dlookup_dictInsert_self, dictInsert_dictInsert, hnw3]
  have f4 : login_post { st0 with failures := dictInsert st0.failures ip ⟨3, t1⟩ } ip
        (some (some w4)) auth t4
      = ⟨403, false, 0, { st0 with failures := dictInsert st0.failures ip ⟨4, t1⟩ }⟩ := by
    simp [login_post, RateLimiter_check, hl, hw4, record_failure,
          dlookup_dictInsert_self, dictInsert_dictInsert, hnw4]
  have f5 : login_post { st0 with failures := dictInsert st0.failures ip ⟨4, t1⟩ } ip
        (some (some w5)) auth t5
      = ⟨403, false, 0,
         { st0 with failures := dictInsert st0.failures ip ⟨5, t1⟩,
                    lockouts := dictInsert st0.lockouts ip (t5 + 900) }⟩ := by
    simp [login_post, RateLimiter_check, hl, hw5, record_failure,
          dlookup_dictInsert_self, dictInsert_dictInsert, hnw5]
  have f6a : (login_post
        { st0 with failures := dictInsert st0.failures ip ⟨5, t1⟩,
                   lockouts := dictInsert st0.lockouts ip (t5 + 900) } ip
        (some (some auth)) auth t6).status = 429 := by
    simp [login_post, RateLimiter_check, dlookup_dictInsert_self, h6]
  have f6b : (login_post
        { st0 with failures := dictInsert st0.failures ip ⟨5, t1⟩,
                   lockouts := dictInsert st0.lockouts ip (t5 + 900) } ip
        (some (some auth)) auth t6).cookieSet = false := by
    simp [login_post, RateLimiter_check, dlookup_dictInsert_self, h6]
  have f6s : (login_post
        { st0 with failures := dictInsert st0.failures ip ⟨5, t1⟩,
                   lockouts := dictInsert st0.lockouts ip (t5 + 900) } ip
        (some (some auth)) auth t6).state
      = { st0 with failures := dictInsert st0.failures ip ⟨5, t1⟩,
                   lockouts := dictInsert st0.lockouts ip (t5 + 900) } := by
    simp [login_post, RateLimiter_check, dlookup_dictInsert_self, h6]
  have f7a : (login_post
        { st0 with failures := dictInsert st0.failures ip ⟨5, t1⟩,
                   lockouts := dictInsert st0.lockouts ip (t5 + 900) } ip
        (some (some auth)) auth t7).status = 200 := by
    simp [login_post, RateLimiter_check, dlookup_dictInsert_self, hn7]
  have f7b : (login_post
        { st0 with failures := dictInsert st0.failures ip ⟨5, t1⟩,
                   lockouts := dictInsert st0.lockouts ip (t5 + 900) } ip
        (some (some auth)) auth t7).cookieSet = true := by
    simp [login_post, RateLimiter_check, dlookup_dictInsert_self, hn7]
  have f7c : dlookup (login_post
        { st0 with failures := dictInsert st0.failures ip ⟨5, t1⟩,
                   lockouts := dictInsert st0.lockouts ip (t5 + 900) } ip
        (some (some auth)) auth t7).state.failures ip = none := by
    simp [login_post, RateLimiter_check, dlookup_dictInsert_self, hn7,
          dlookup_dictRemove_self]
  simp only [f1, f2, f3, f4, f5, f6a, f6b, f6s, f7a, f7b, f7c]
  simp

/-- Witness for C2 at concrete times and passwords. -/
theorem login_lockout_flow_witness :
    (let o1 := login_post {} "9.9.9.9" (some (some "x")) "pw" 0
     let o2 := login_post o1.state "9.9.9.9" (some (some "x")) "pw" 10
     let o3 := login_post o2.state "9.9.9.9" (some (some "x")) "pw" 20
     let o4 := login_post o3.state "9.9.9.9" (some (some "x")) "pw" 30
     let o5 := login_post o4.state "9.9.9.9" (some (some "x")) "pw" 40
     let o6 := login_post o5.state "9.9.9.9" (some (some "pw")) "pw" 50
     let o7 := login_post o6.state "9.9.9.9" (some (some "pw")) "pw" 940
     o1.status = 403 ∧ o2.status = 403 ∧ o3.status = 403 ∧ o4.status = 403 ∧
     o5.status = 403 ∧ o6.status = 429 ∧ o6.cookieSet = false ∧
     o7.status = 200 ∧ o7.cookieSet = true ∧
     dlookup o7.state.failures "9.9.9.9" = none) :=
  login_lockout_flow {} "9.9.9.9" "pw" "x" "x" "x" "x" "x" 0 10 20 30 40 50 940
    rfl rfl (by decide) (by decide) (by decide) (by decide) (by decide)
    (by decide) (by decide) (by decide) (by decide) (by decide) (by decide)

/-- C7 (counterexample): a node whose last heartbeat is 1000s old — and
which `get_nodes` therefore reports as offline — is still proxied to:
the handler issues the outbound `forward` request instead of the 404
the claim requires for offline nodes. -/
theorem proxy_offline_forwarded :
    get_nodes
        { nodes := [("s1",
            { node_id := some "s1", name := some "s1",
              url := some "http://5.6.7.8:8888?hostname=h",
              stats := some { entries := [("cpu", 10)] },
              last_seen := some 0 })] } 1000
      = .ok [{ node_id := some "s1", name := some "s1",
               url := some "http://5.6.7.8:8888?hostname=h",
               stats := some { entries := [("cpu", 10)], pm2 := some [] },
               last_seen := some 0, is_online := some false }] ∧
    proxy_post true (some { node_id := some "s1", action := some "list" })
        { nodes := [("s1",
            { node_id := some "s1", name := some "s1",
              url := some "http://5.6.7.8:8888?hostname=h",
              stats := some { entries := [("cpu", 10)] },
              last_seen := some 0 })] } "sec"
      = .forward "http://5.6.7.8:8888/api/slave/pm2" true := by
  exact ⟨rfl, rfl⟩

/-- C7 (amended): a proxy request for a `node_id` with no registry entry
(or no `node_id` at all) yields the 404 `notFound` decision, which by
construction performs no outbound request; liveness of registered nodes
is not checked. -/
theorem proxy_unknown_node_404 (authed : Bool) (body : ProxyBody)
    (s : NodeManagerState) (options_secret : String)
    (ha : authed = true)
    (hmiss : ∀ nid, body.node_id = some nid → dlookup s.nodes nid = none) :
    proxy_post authed (some body) s options_secret = .notFound := by
  subst ha
  unfold proxy_post
  cases hb : body.node_id with
  | none => simp [hb]
  | some nid => simp [hb, hmiss nid hb]

/-- Witness for the amended C7: an unregistered id is not forwarded. -/
theorem proxy_unknown_node_404_witness :
    proxy_post true (some { node_id := some "ghost", action := some "list" }) {} "sec"
      = .notFound :=
  proxy_unknown_node_404 true { node_id := some "ghost", action := some "list" } {} "sec"
    rfl (fun _ _ => rfl)

/-- C9: in master mode the route table maps `/api/heartbeat` and
`/api/login`, but `/api/control`, `/api/callback/logs`,
`/api/callback/apps` and `/api/apps/proxy` all fall through to the
application-wide `NotFoundHandler`: the handlers for them exist in
`cluster.py` but `make_handlers` never registers them, although
`SlaveWorker.report_logs` / `report_apps` post to two of them. -/
theorem master_routes_missing_endpoints (with_slave : Bool) :
    routeOf (make_handlers ⟨"master", with_slave⟩) "/api/control" = .notFoundH ∧
    routeOf (make_handlers ⟨"master", with_slave⟩) "/api/callback/logs" = .notFoundH ∧
    routeOf (make_handlers ⟨"master", with_slave⟩) "/api/callback/apps" = .notFoundH ∧
    routeOf (make_handlers ⟨"master", with_slave⟩) "/api/apps/proxy" = .notFoundH ∧
    routeOf (make_handlers ⟨"master", with_slave⟩) "/api/heartbeat" = .masterH ∧
    routeOf (make_handlers ⟨"master", with_slave⟩) "/api/login" = .loginH := by
  cases with_slave <;> exact ⟨rfl, rfl, rfl, rfl, rfl, rfl⟩

/-! ## Helper lemmas about strings and `quote_plus` -/

theorem string_append_assoc (a b c : String) : a ++ b ++ c = a ++ (b ++ c) := by
  obtain ⟨d1⟩ := a
  obtain ⟨d2⟩ := b
  obtain ⟨d3⟩ := c
  exact congrArg String.mk (List.append_assoc d1 d2 d3)

theorem string_eq_empty_of_data_nil (b : String) (h : b.data = []) : b = "" := by
  obtain ⟨d⟩ := b
  cases h
  rfl

theorem string_append_ne_empty (a b : String) (hb : b ≠ "") : a ++ b ≠ "" := by
  intro hc
  apply hb
  obtain ⟨d1⟩ := a
  obtain ⟨d2⟩ := b
  have hd : d1 ++ d2 = ([] : List Char) := congrArg String.data hc
  exact congrArg String.mk (List.append_eq_nil.mp hd).2

theorem flatten_quotePlusChar_safe (l : List Char) (h : l.all isSafeChar = true) :
    (l.map quotePlusChar).flatten = l := by
  induction l with
  | nil => rfl
  | cons c cs ih =>
      rw [List.all_cons, Bool.and_eq_true] at h
      simp [quotePlusChar, h.1, ih h.2]

theorem quotePlus_safe (s : String) (h : s.data.all isSafeChar = true) :
    quotePlus s = s := by
  obtain ⟨d⟩ := s
  exact congrArg String.mk (flatten_quotePlusChar_safe d h)

/-- A non-empty secret of URL-safe characters survives `quote_plus`
verbatim, so the SSH deep link ends in the secret itself. -/
theorem buildSshLink_embeds_secret (my_url ssh_host ssh_user ssh_password : String)
    (ssh_port : Nat) (secret : String) (hsec : secret ≠ "")
    (hsafe : secret.data.all isSafeChar = true) :
    ∃ pre, buildSshLink my_url ssh_host ssh_user ssh_password ssh_port secret
      = pre ++ secret := by
  unfold buildSshLink
  dsimp only
  rw [if_pos hsec]
  have hE : ∃ p,
      urlencode ([("hostname", ssh_host), ("username", ssh_user),
        ("password", b64encode ssh_password), ("port", toString ssh_port)]
        ++ [("secret", secret)])
        = p ++ secret := by
    simp only [List.cons_append, List.nil_append, urlencode, quotePlus_safe secret hsafe]
    simp only [← string_append_assoc]
    exact ⟨_, rfl⟩
  obtain ⟨P, hP⟩ := hE
  rw [hP]
  by_cases hq : (urlparse my_url).query = ""
  · rw [if_neg (by simp [hq])]
    unfold urlunparse
    rw [if_neg (string_append_ne_empty P secret hsec)]
    simp only [← string_append_assoc]
    exact ⟨_, rfl⟩
  · rw [if_pos hq]
    unfold urlunparse
    rw [if_neg (string_append_ne_empty _ _ (string_append_ne_empty P secret hsec))]
    simp only [← string_append_assoc]
    exact ⟨_, rfl⟩

/-- C8 (counterexample): with SSH credentials and the cluster secret
`topsecret123` configured on a slave, the heartbeat URL embeds the
secret, and the guest-accessible node list (`/api/nodes`, served
whether or not `check_auth` holds) exposes it: a guest request
(`check_auth = false`, dashboard secret rendered empty) still receives
a node whose `url` field contains the secret. -/
theorem guest_secret_exposure_cex :
    check_auth "adminpw" none none = false ∧
    dashboard_secret (check_auth "adminpw" none none) "topsecret123" = "" ∧
    (((get_nodes
        (masterHeartbeatPost (some "topsecret123") (some "topsecret123")
          (some (slaveHeartbeatData "s1" "s1" "http://1.2.3.4:8888" "1.2.3.4" "root"
            "pw" 22 "topsecret123" { entries := [] })) {} 100).state 100).toOption.getD
        []).any
      (fun v => strContains (v.url.getD "") "topsecret123")) = true := by
  exact ⟨by decide, by decide, by decide⟩

/-- C8 (amended): for guests the dashboard is rendered with an empty
secret, but the machine-channel secret still reaches guests through the
node list: a slave configured with SSH credentials and a non-empty
URL-safe secret reports a heartbeat `url` that ends in the secret, and
`get_nodes` serves stored `url`s verbatim to the (guest-accessible)
node list. -/
theorem guest_secret_exposure
    (options_secret my_url ssh_host ssh_user ssh_password node_id node_name : String)
    (ssh_port : Nat) (stats : StatsDict) (s : NodeManagerState) (now : Int)
    (l : List NodeRecord)
    (hu : ssh_user ≠ "") (hp : ssh_password ≠ "") (hsec : options_secret ≠ "")
    (hsafe : options_secret.data.all isSafeChar = true)
    (hlist : get_nodes s now = .ok l) :
    dashboard_secret false options_secret = "" ∧
    (∃ pre, (slaveHeartbeatData node_id node_name my_url ssh_host ssh_user ssh_password
        ssh_port options_secret stats).url = some (pre ++ options_secret)) ∧
    (∀ v ∈ l, ∃ p ∈ s.nodes, v.url = p.2.url) := by
  refine ⟨rfl, ?_, ?_⟩
  · obtain ⟨pre, hpre⟩ := buildSshLink_embeds_secret my_url ssh_host ssh_user
      ssh_password ssh_port options_secret hsec hsafe
    refine ⟨pre, ?_⟩
    simp [slaveHeartbeatData, hu, hp, hpre]
  · intro v hv
    obtain ⟨p, hpmem, hview⟩ := get_nodesAux_mem s.node_apps now s.nodes l hlist v hv
    obtain ⟨_, hurl, _, _⟩ := viewNode_ok_fields s.node_apps now p v hview
    exact ⟨p, hpmem, hurl⟩

/-- Witness for the amended C8 at a concrete secret and configuration. -/
theorem guest_secret_exposure_witness :
    dashboard_secret false "topsecret123" = "" ∧
    (∃ pre, (slaveHeartbeatData "s1" "s1" "http://1.2.3.4:8888" "1.2.3.4" "root" "pw"
        22 "topsecret123" { entries := [] }).url = some (pre ++ "topsecret123")) :=
  ⟨(guest_secret_exposure "topsecret123" "http://1.2.3.4:8888" "1.2.3.4" "root" "pw"
      "s1" "s1" 22 { entries := [] } {} 0 [] (by decide) (by decide) (by decide)
      (by decide) rfl).1,
   (guest_secret_exposure "topsecret123" "http://1.2.3.4:8888" "1.2.3.4" "root" "pw"
      "s1" "s1" 22 { entries := [] } {} 0 [] (by decide) (by decide) (by decide)
      (by decide) rfl).2.1⟩

end Serv00Ghost
